import Mathlib

/-!
Verification of the PyDotBot gateway controller against its design spec.

The definitions below are a shallow embedding of `bot_controller/controller.py`:
the fleet-membership state engine (`handle_received_payload`, `_dotbots_update`),
the event fan-out (`_ws_send_safe`, `notify_clients`), the outbound command path
(`send_payload`), the orchestrator exception handling (`run`) and the calibration
path computation from `ControllerBase.__init__`.  Python `float` timestamps are
modelled as `Int` instants and solver coordinates as `ℚ`; both are only carried
and compared, never computed with, so the order structure is all that matters.
Side effects (scheduled notifications, calibration capture, record insertion)
are reified as an explicit event trace in program order.
-/

namespace BotController

/-- Hexadecimal digit character, lowercase, as produced by Python
`binascii.hexlify`: values 0-9 map to the digit characters, 10-15 to the
letters a-f. -/
def hexDigitChar (n : Nat) : Char :=
  if n < 10 then Char.ofNat (48 + n) else Char.ofNat (87 + n)

/-- Python `hexlify(int(x).to_bytes(8, "big")).decode()` (controller.py
lines 201 and 248-250): the 16-character lowercase hexadecimal rendering of a
64-bit address, big-endian. -/
def hexlify8 (x : Nat) : String :=
  String.mk ((List.range 16).map (fun i => hexDigitChar (x / 16 ^ (15 - i) % 16)))

/-- Numeric value of one hexadecimal character, the digit step of Python
`int(s, 16)`; characters outside the hexadecimal alphabet (which never occur in
the strings this controller builds) are given value 0. -/
def hexCharVal (c : Char) : Nat :=
  if 48 ≤ c.toNat ∧ c.toNat ≤ 57 then c.toNat - 48
  else if 97 ≤ c.toNat ∧ c.toNat ≤ 102 then c.toNat - 87
  else if 65 ≤ c.toNat ∧ c.toNat ≤ 70 then c.toNat - 55
  else 0

/-- Python `int(s, 16)` on the hexadecimal address strings built by this
controller (controller.py line 205). -/
def intOfHex (s : String) : Nat :=
  s.data.foldl (fun a c => 16 * a + hexCharVal c) 0

/-- Payload type discriminator.  The concrete enumeration lives in
`bot_controller/protocol.py`, outside the sources at hand; the variants are the
ones named by controller.py (`CMD_MOVE_RAW`, `CMD_RGB_LED`, `LH2_RAW_DATA`)
plus a catch-all for the remaining telemetry variants the spec mentions. -/
inductive PayloadType where
  | cmd_move_raw
  | cmd_rgb_led
  | lh2_raw_data
  | other (tag : Nat)
deriving DecidableEq, Repr

/-- Protocol header (spec section 3): destination address, source address,
swarm id, protocol version, all carried as numbers. -/
structure ProtocolHeader where
  destination : Nat
  source : Nat
  swarm_id : Nat
  version : Nat
deriving DecidableEq, Repr

/-- A decoded protocol payload: header, payload-type discriminator and the
type-specific body.  For a positioning-sample batch the body doubles as the raw
samples (`payload.values`) handed to the external solver. -/
structure ProtocolPayload where
  header : ProtocolHeader
  payload_type : PayloadType
  values : List Nat
deriving DecidableEq, Repr

/-- `DotBotModel` as instantiated by controller.py lines 202-206 (the dataclass
itself lives in `bot_controller/models.py`; the spec's DeviceRecord): address as
a fixed-width hexadecimal string, last-seen timestamp, active flag. -/
structure DotBotModel where
  address : String
  last_seen : Int
  active : Bool
deriving DecidableEq, Repr

/-- Fleet state: the `self.dotbots` dictionary, as an insertion-ordered
association list from address string to record, mirroring a Python dict. -/
abbrev FleetState := List (String × DotBotModel)

/-- Python `key in dict` membership test on fleet state. -/
def containsKey (s : FleetState) (k : String) : Bool :=
  s.any fun kv => kv.1 == k

/-- Python `dict.update({k: v})`: replace in place when the key is present,
append otherwise. -/
def dictUpdate (s : FleetState) (k : String) (v : DotBotModel) : FleetState :=
  if containsKey s k then s.map (fun kv => if kv.1 == k then (k, v) else kv)
  else s ++ [(k, v)]

/-- Python `dict.pop(k)` on fleet state (the result, ignoring the returned
value): drop the entry with the given key. -/
def dictPop (s : FleetState) (k : String) : FleetState :=
  s.filter fun kv => kv.1 != k

/-- A notification message handed to `notify_clients`, by its JSON content:
`reload` denotes the object with single field cmd = "reload"; `lh2Position a x y`
denotes the object with fields cmd = "lh2_position", address = a, x, y
(controller.py lines 151, 219-226, 230). -/
inductive Notification where
  | reload
  | lh2Position (address : String) (x : ℚ) (y : ℚ)
deriving DecidableEq, Repr

/-- One observable effect of the fleet state engine, in program order: a
notification handed to the fan-out (for `asyncio.create_task` calls, recorded
at the point of the call), a batch of raw samples handed to the external
calibration-capture sink, or a record inserted into fleet state. -/
inductive Event where
  | notify (n : Notification)
  | capture (vals : List Nat)
  | insert (r : DotBotModel)
deriving DecidableEq, Repr

/-- The record inserted by an event, when it is an insertion. -/
def Event.insertedRecord : Event → Option DotBotModel
  | Event.insert r => some r
  | _ => none

/-- The notification emitted by an event, when it is a notification. -/
def Event.sentNotification : Event → Option Notification
  | Event.notify n => some n
  | _ => none

/-- Records inserted along an event trace, in order. -/
def insertsOf (evs : List Event) : List DotBotModel :=
  evs.filterMap Event.insertedRecord

/-- Notifications emitted along an event trace, in order. -/
def notificationsOf (evs : List Event) : List Notification :=
  evs.filterMap Event.sentNotification

/-- Position-update notifications emitted along an event trace. -/
def positionNotificationsOf (evs : List Event) : List Notification :=
  (notificationsOf evs).filter fun n =>
    match n with
    | Notification.lh2Position _ _ _ => true
    | _ => false

/-- Fleet-state snapshot visible after the first `k` events of a trace have
taken effect, starting from `s0`: insert events update the dictionary, the
other events leave it unchanged. -/
def snapshotAfter (s0 : FleetState) (evs : List Event) (k : Nat) : FleetState :=
  (insertsOf (evs.take k)).foldl (fun s r => dictUpdate s r.address r) s0

/-- Controller settings dataclass (controller.py lines 46-58). -/
structure ControllerSettings where
  port : String
  baudrate : Nat
  dotbot_address : String
  gw_address : String
  swarm_id : String
  calibration_dir : String
  calibrate : Bool
  webbrowser : Bool
  verbose : Bool
deriving DecidableEq, Repr

/-- Calibration model blob: opaque unpickled data, identified abstractly. -/
abbrev Calibration := Nat

/-- The external positioning solver `compute_coordinates` from the lighthouse2
module (an external collaborator per spec section 6): raw samples and a
calibration model give an optional coordinate pair. -/
abbrev Lh2Solver := List Nat → Calibration → Option (ℚ × ℚ)

/-- Controller state relevant to the fleet state engine and the outbound path
(controller.py lines 83-101): fleet dictionary, fixed header, settings, the
optional serial handle (None until `_start_serial` ran) and the optional loaded
calibration model. -/
structure Controller where
  dotbots : FleetState
  header : ProtocolHeader
  settings : ControllerSettings
  serial : Option Unit
  calibration : Option Calibration

/-- Leading-slash test on a path string, the check `posixpath.join` uses to
recognize an absolute component. -/
def startsWithSlash (s : String) : Bool :=
  match s.data with
  | c :: _ => c = '/'
  | [] => false

/-- Trailing-slash test on a path string. -/
def endsWithSlash (s : String) : Bool :=
  match s.data.getLast? with
  | some c => c = '/'
  | none => false

/-- Python `os.path.join` on POSIX (`posixpath.join`) for two components: an
absolute second component discards the first; otherwise the two are joined,
inserting a separator unless the first is empty or already ends with one. -/
def posixpath_join (a b : String) : String :=
  if startsWithSlash b then b
  else if a = "" ∨ endsWithSlash a then a ++ b
  else a ++ "/" ++ b

/-- The calibration file path computed in `ControllerBase.__init__`
(controller.py lines 94-96):
`os.path.join(self.settings.calibration_dir, "/tmp/calibration.out")`. -/
def init_calibration_path (settings : ControllerSettings) : String :=
  posixpath_join settings.calibration_dir "/tmp/calibration.out"

/-- The calibration/positioning branch of `handle_received_payload`
(controller.py lines 207-228), as the event trace it produces: when the payload
is a positioning-sample batch, first the optional capture of the raw samples
(when `settings.calibrate` is set), then, when a calibration model is loaded
and the solver returns coordinates, the scheduled position-update
notification. -/
def lh2_events (solver : Lh2Solver) (ctl : Controller) (p : ProtocolPayload)
    (address : String) : List Event :=
  if p.payload_type = PayloadType.lh2_raw_data then
    (if ctl.settings.calibrate then [Event.capture p.values] else []) ++
    (match ctl.calibration with
     | some cal =>
         match solver p.values cal with
         | some c => [Event.notify (Notification.lh2Position address c.1 c.2)]
         | none => []
     | none => [])
  else []

/-- `ControllerBase.handle_received_payload` (controller.py lines 191-231).
Returns the controller after the call together with the trace of its effects in
program order: command payloads (`CMD_MOVE_RAW`, `CMD_RGB_LED`) are dropped at
once; otherwise the positioning branch runs first, then a "reload" notification
is scheduled when the source address is not yet a key of `self.dotbots`, and
finally the fresh record is written into the dictionary.  `now` stands for
`time.time()` at the call, the solver for the external `compute_coordinates`. -/
def handle_received_payload (solver : Lh2Solver) (ctl : Controller) (now : Int)
    (p : ProtocolPayload) : Controller × List Event :=
  if p.payload_type = PayloadType.cmd_move_raw ∨
      p.payload_type = PayloadType.cmd_rgb_led then
    (ctl, [])
  else
    let source := hexlify8 p.header.source
    let dotbot : DotBotModel :=
      { address := source
        last_seen := now
        active := intOfHex source == ctl.header.destination }
    let reloadEvents : List Event :=
      if containsKey ctl.dotbots source then []
      else [Event.notify Notification.reload]
    ({ ctl with dotbots := dictUpdate ctl.dotbots dotbot.address dotbot },
      lh2_events solver ctl p dotbot.address ++ reloadEvents ++
        [Event.insert dotbot])

/-- One pass of the body of `ControllerBase._dotbots_update` (controller.py
lines 143-151): collect every record whose last-seen timestamp is more than 3
seconds in the past, pop them all, and emit one "reload" notification when the
collected batch is non-empty.  `now` stands for `time.time()` during the pass
(the code samples the clock once per record inside one pass; a single instant
is used here). -/
def dotbots_update_tick (dotbots : FleetState) (now : Int) :
    FleetState × List Notification :=
  let to_remove := dotbots.filter fun kv => decide (kv.2.last_seen + 3 < now)
  let remaining := to_remove.foldl (fun s kv => dictPop s kv.2.address) dotbots
  (remaining, if to_remove.isEmpty then [] else [Notification.reload])

/-- Python exception classes distinguished by `_ws_send_safe`: the
`websockets.exceptions.ConnectionClosedError` its `except` clause names, and
every other exception class. -/
inductive PyError where
  | connectionClosedError
  | otherError
deriving DecidableEq, Repr

/-- Behaviour of `websocket.send_text` for one registered handle on one
message: either the send succeeds or it raises some exception. -/
inductive WsBehavior where
  | ok
  | raises (e : PyError)
deriving DecidableEq, Repr

/-- `ControllerBase._ws_send_safe` (controller.py lines 233-238): awaits
`websocket.send_text(msg)` and catches exactly
`websockets.exceptions.ConnectionClosedError` (then merely sleeps).  Result:
the exception escaping the coroutine, if any, and whether the message was
delivered to this handle. -/
def ws_send_safe : WsBehavior → Option PyError × Bool
  | WsBehavior.ok => (none, true)
  | WsBehavior.raises PyError.connectionClosedError => (none, false)
  | WsBehavior.raises e => (some e, false)

/-- `ControllerBase.notify_clients` (controller.py lines 240-244):
`asyncio.gather` of `_ws_send_safe` over every registered websocket.  All the
coroutines run to completion independently; `gather` re-raises the first
uncaught child exception to its awaiter.  Result: the exception escaping
`notify_clients`, if any, and the per-handle delivered flags. -/
def notify_clients (clients : List WsBehavior) : Option PyError × List Bool :=
  let results := clients.map ws_send_safe
  ((results.filterMap Prod.fst).head?, results.map Prod.snd)

/-- The six concurrent activities `ControllerBase.run` launches (controller.py
lines 260-267). -/
inductive Activity where
  | web
  | openWebbrowser
  | startSerial
  | dotbotsUpdate
  | tableRefresh
  | variantStart
deriving DecidableEq, Repr

/-- The full task list of one run, in launch order. -/
def runTasks : List Activity :=
  [Activity.web, Activity.openWebbrowser, Activity.startSerial,
   Activity.dotbotsUpdate, Activity.tableRefresh, Activity.variantStart]

/-- Exception classes distinguished by the `except` clause of
`ControllerBase.run` (controller.py lines 269-273): the three caught classes
and every other exception class. -/
inductive RunError where
  | systemExit
  | serialInterfaceException
  | serialException
  | otherException
deriving DecidableEq, Repr

/-- Membership in the `except (SystemExit, SerialInterfaceException,
serial.serialutil.SerialException)` tuple of `ControllerBase.run`. -/
def caughtByRun : RunError → Bool
  | RunError.systemExit => true
  | RunError.serialInterfaceException => true
  | RunError.serialException => true
  | RunError.otherException => false

/-- A fatal transport condition in the sense of the spec: a serial disconnect
or unrecoverable serial I/O error (`SerialInterfaceException` or
`serial.serialutil.SerialException`). -/
def fatalTransport : RunError → Bool
  | RunError.serialInterfaceException => true
  | RunError.serialException => true
  | _ => false

/-- Outcome of one `ControllerBase.run` call: which tasks were cancelled, which
error was printed as a diagnostic, and which exception propagated out of `run`
to its caller. -/
structure RunResult where
  cancelled : List Activity
  diagnosticPrinted : Option RunError
  raisedToCaller : Option RunError
deriving DecidableEq, Repr

/-- `ControllerBase.run` (controller.py lines 256-277), as a function of how
the awaited `asyncio.gather` of the six tasks completes (`none`: it never
raises; `some e`: it raises `e`).  A caught exception is printed, every task in
the list is cancelled, and `run` returns normally; an uncaught exception
propagates without the cancellation loop running. -/
def run (gatherOutcome : Option RunError) : RunResult :=
  match gatherOutcome with
  | none =>
      { cancelled := [], diagnosticPrinted := none, raisedToCaller := none }
  | some e =>
      if caughtByRun e then
        { cancelled := runTasks, diagnosticPrinted := some e,
          raisedToCaller := none }
      else
        { cancelled := [], diagnosticPrinted := none, raisedToCaller := some e }

/-- Reserved HDLC flag byte.  Modelled from the spec: `bot_controller/hdlc.py`
is not among the sources at hand; spec sections 4.1 and 6 fix a reserved flag
byte and the HDLC-conventional value 0x7E is used. -/
def FLAG_BYTE : Nat := 126

/-- Reserved HDLC escape byte.  Modelled from the spec: as for `FLAG_BYTE`,
the HDLC-conventional value 0x7D is used. -/
def ESCAPE_BYTE : Nat := 125

/-- Modelled from the spec: `hdlc_encode` from `bot_controller/hdlc.py`, which
is not among the sources at hand.  Spec sections 4.1 and 6: the body is
byte-stuffed (each reserved byte replaced by the escape byte followed by the
byte XOR 0x20) and delimited by flag bytes on both sides. -/
def hdlc_encode (data : List Nat) : List Nat :=
  [FLAG_BYTE] ++
    (data.map fun b =>
      if b = FLAG_BYTE ∨ b = ESCAPE_BYTE then [ESCAPE_BYTE, b ^^^ 32]
      else [b]).flatten ++
  [FLAG_BYTE]

/-- Big-endian byte rendering of a number over a fixed width. -/
def natToBytesBE (w : Nat) (x : Nat) : List Nat :=
  (List.range w).map fun i => x / 256 ^ (w - 1 - i) % 256

/-- Modelled from the spec: the one-byte payload-type tag written by the codec
(`bot_controller/protocol.py` is not among the sources at hand); the spec fixes
only that the tag is a single byte, so representative distinct values are
used. -/
def PayloadType.tag : PayloadType → Nat
  | PayloadType.cmd_move_raw => 1
  | PayloadType.cmd_rgb_led => 2
  | PayloadType.lh2_raw_data => 3
  | PayloadType.other t => t

/-- Modelled from the spec: `ProtocolPayload.to_bytes` from
`bot_controller/protocol.py`, which is not among the sources at hand.  Spec
section 4.2 layout, big-endian: 8-byte destination address, 8-byte source
address, 1-byte swarm id, 1-byte version, 1-byte payload-type tag, then the
type-specific body. -/
def ProtocolPayload.to_bytes (p : ProtocolPayload) : List Nat :=
  natToBytesBE 8 p.header.destination ++ natToBytesBE 8 p.header.source ++
    [p.header.swarm_id % 256, p.header.version % 256,
      p.payload_type.tag % 256] ++
    p.values.map (fun v => v % 256)

/-- `ControllerBase.send_payload` (controller.py lines 246-254), as the list of
transport writes it performs: nothing when the destination address is not a key
of `self.dotbots`, nothing when `self.serial` is still unset, otherwise one
write of the HDLC-framed encoding. -/
def send_payload (ctl : Controller) (p : ProtocolPayload) : List (List Nat) :=
  let destination := hexlify8 p.header.destination
  if containsKey ctl.dotbots destination = false then []
  else
    match ctl.serial with
    | some _ => [hdlc_encode (ProtocolPayload.to_bytes p)]
    | none => []

/-- Sample settings used to instantiate concrete controllers in witnesses. -/
def sampleSettings : ControllerSettings :=
  { port := "/dev/ttyACM0", baudrate := 1000000, dotbot_address := "4242",
    gw_address := "aaaa", swarm_id := "77", calibration_dir := "/tmp",
    calibrate := false, webbrowser := false, verbose := false }

/-- A controller fresh out of construction: empty fleet, no serial handle, no
calibration model, destination address 0x4242. -/
def freshController : Controller :=
  { dotbots := []
    header := { destination := 16962, source := 43690, swarm_id := 119, version := 1 }
    settings := sampleSettings
    serial := none
    calibration := none }

/-- A solver that never resolves a position. -/
def nullSolver : Lh2Solver := fun _ _ => none

/-- A telemetry payload (non-command payload type) from the unknown source
address 9. -/
def newSourcePayload : ProtocolPayload :=
  { header := { destination := 16962, source := 9, swarm_id := 119, version := 1 }
    payload_type := PayloadType.other 42
    values := [] }

theorem containsKey_dictUpdate (s : FleetState) (k : String) (v : DotBotModel) :
    containsKey (dictUpdate s k v) k = true := by
  unfold dictUpdate
  by_cases h : containsKey s k
  · rw [if_pos h]
    unfold containsKey at h ⊢
    rw [List.any_eq_true] at h ⊢
    obtain ⟨kv, hkv, he⟩ := h
    refine ⟨(k, v), ?_, by simp⟩
    rw [List.mem_map]
    exact ⟨kv, hkv, by simp [he]⟩
  · rw [if_neg h]
    unfold containsKey
    rw [List.any_append]
    simp

theorem lh2_events_shape (solver : Lh2Solver) (ctl : Controller)
    (p : ProtocolPayload) (a : String) :
    ∀ e ∈ lh2_events solver ctl p a,
      Event.insertedRecord e = none ∧
        Event.sentNotification e ≠ some Notification.reload := by
  intro e he
  unfold lh2_events at he
  split at he
  · rw [List.mem_append] at he
    rcases he with he | he
    · split at he
      · rw [List.mem_singleton] at he
        subst he
        exact ⟨rfl, by simp [Event.sentNotification]⟩
      · exact absurd he (List.not_mem_nil e)
    · split at he
      · split at he
        · rw [List.mem_singleton] at he
          subst he
          exact ⟨rfl, by simp [Event.sentNotification]⟩
        · exact absurd he (List.not_mem_nil e)
      · exact absurd he (List.not_mem_nil e)
  · exact absurd he (List.not_mem_nil e)

theorem insertsOf_eq_nil_of_shape {evs : List Event}
    (h : ∀ e ∈ evs, Event.insertedRecord e = none) : insertsOf evs = [] := by
  unfold insertsOf
  rw [List.filterMap_eq_nil_iff]
  exact h

theorem reload_not_mem_notificationsOf {evs : List Event}
    (h : ∀ e ∈ evs, Event.sentNotification e ≠ some Notification.reload) :
    Notification.reload ∉ notificationsOf evs := by
  unfold notificationsOf
  intro hmem
  rw [List.mem_filterMap] at hmem
  obtain ⟨e, he, hs⟩ := hmem
  exact h e he hs

theorem snapshotAfter_eq_of_no_inserts (s0 : FleetState) (evs : List Event)
    (j : Nat) (h : insertsOf (evs.take j) = []) : snapshotAfter s0 evs j = s0 := by
  unfold snapshotAfter
  rw [h]
  rfl

theorem take_append_of_le {α : Type} (l1 l2 : List α) (j : Nat)
    (h : j ≤ l1.length) : (l1 ++ l2).take j = l1.take j := by
  rw [List.take_append_eq_append_take]
  simp [Nat.sub_eq_zero_of_le h]

theorem handle_received_payload_telemetry (solver : Lh2Solver)
    (ctl : Controller) (now : Int) (p : ProtocolPayload)
    (htel : ¬(p.payload_type = PayloadType.cmd_move_raw ∨
      p.payload_type = PayloadType.cmd_rgb_led)) :
    handle_received_payload solver ctl now p =
      ({ ctl with
          dotbots := dictUpdate ctl.dotbots (hexlify8 p.header.source)
            { address := hexlify8 p.header.source
              last_seen := now
              active := intOfHex (hexlify8 p.header.source) ==
                ctl.header.destination } },
        lh2_events solver ctl p (hexlify8 p.header.source) ++
          (if containsKey ctl.dotbots (hexlify8 p.header.source) then []
           else [Event.notify Notification.reload]) ++
          [Event.insert
            { address := hexlify8 p.header.source
              last_seen := now
              active := intOfHex (hexlify8 p.header.source) ==
                ctl.header.destination }]) := by
  unfold handle_received_payload
  rw [if_neg htel]

theorem handle_received_payload_command (solver : Lh2Solver) (ctl : Controller)
    (now : Int) (p : ProtocolPayload)
    (h : p.payload_type = PayloadType.cmd_move_raw ∨
      p.payload_type = PayloadType.cmd_rgb_led) :
    handle_received_payload solver ctl now p = (ctl, []) := by
  unfold handle_received_payload
  rw [if_pos h]

/-- Claim C1: handling a telemetry payload from a source address not yet in
fleet state emits a "reload" notification strictly before the address appears
in any fleet-state snapshot — every snapshot up to and including the emission
point lacks the address, while the state after the call contains it; from an
already-known source address, no reload notification is emitted.  The emission
of a notification scheduled with `asyncio.create_task` is placed in the trace
at the point of the call, which precedes the dictionary insertion in program
order. -/
theorem reload_precedes_insert_for_new_source (solver : Lh2Solver)
    (ctl : Controller) (now : Int) (p : ProtocolPayload)
    (htel : ¬(p.payload_type = PayloadType.cmd_move_raw ∨
      p.payload_type = PayloadType.cmd_rgb_led)) :
    (containsKey ctl.dotbots (hexlify8 p.header.source) = false →
      ∃ pre post,
        (handle_received_payload solver ctl now p).2 =
          pre ++ Event.notify Notification.reload :: post ∧
        (∀ j ≤ pre.length,
          containsKey
            (snapshotAfter ctl.dotbots
              ((handle_received_payload solver ctl now p).2) j)
            (hexlify8 p.header.source) = false) ∧
        containsKey (handle_received_payload solver ctl now p).1.dotbots
          (hexlify8 p.header.source) = true) ∧
    (containsKey ctl.dotbots (hexlify8 p.header.source) = true →
      Notification.reload ∉
        notificationsOf (handle_received_payload solver ctl now p).2) := by
  rw [handle_received_payload_telemetry solver ctl now p htel]
  constructor
  · intro hnew
    rw [if_neg (by simp [hnew])]
    refine ⟨lh2_events solver ctl p (hexlify8 p.header.source),
      [Event.insert
        { address := hexlify8 p.header.source
          last_seen := now
          active := intOfHex (hexlify8 p.header.source) ==
            ctl.header.destination }],
      by simp, ?_, ?_⟩
    · intro j hj
      have htake :
          ((lh2_events solver ctl p (hexlify8 p.header.source) ++
            [Event.notify Notification.reload]) ++
            [Event.insert
              { address := hexlify8 p.header.source
                last_seen := now
                active := intOfHex (hexlify8 p.header.source) ==
                  ctl.header.destination }]).take j =
          (lh2_events solver ctl p (hexlify8 p.header.source)).take j := by
        rw [List.append_assoc]
        exact take_append_of_le _ _ j hj
      rw [snapshotAfter_eq_of_no_inserts]
      · exact hnew
      · rw [htake]
        refine insertsOf_eq_nil_of_shape ?_
        intro e he
        exact (lh2_events_shape solver ctl p (hexlify8 p.header.source) e
          ((List.take_sublist j _).subset he)).1
    · exact containsKey_dictUpdate ctl.dotbots (hexlify8 p.header.source) _
  · intro hknown
    rw [if_pos (by simp [hknown])]
    refine reload_not_mem_notificationsOf ?_
    intro e he
    rw [List.append_nil, List.mem_append] at he
    rcases he with he | he
    · exact (lh2_events_shape solver ctl p (hexlify8 p.header.source) e he).2
    · rw [List.mem_singleton] at he
      subst he
      simp [Event.sentNotification]

/-- Witness for the claim-C1 theorem: a concrete telemetry payload from the
new source address 9 handled by a fresh controller. -/
theorem reload_precedes_insert_for_new_source_witness :
    (¬(newSourcePayload.payload_type = PayloadType.cmd_move_raw ∨
      newSourcePayload.payload_type = PayloadType.cmd_rgb_led)) ∧
    ((containsKey freshController.dotbots
        (hexlify8 newSourcePayload.header.source) = false →
      ∃ pre post,
        (handle_received_payload nullSolver freshController 0 newSourcePayload).2 =
          pre ++ Event.notify Notification.reload :: post ∧
        (∀ j ≤ pre.length,
          containsKey
            (snapshotAfter freshController.dotbots
              ((handle_received_payload nullSolver freshController 0
                newSourcePayload).2) j)
            (hexlify8 newSourcePayload.header.source) = false) ∧
        containsKey (handle_received_payload nullSolver freshController 0
            newSourcePayload).1.dotbots
          (hexlify8 newSourcePayload.header.source) = true) ∧
    (containsKey freshController.dotbots
        (hexlify8 newSourcePayload.header.source) = true →
      Notification.reload ∉
        notificationsOf (handle_received_payload nullSolver freshController 0
          newSourcePayload).2)) :=
  ⟨by decide,
    reload_precedes_insert_for_new_source nullSolver freshController 0
      newSourcePayload (by decide)⟩

/-- Claim C6: a movement or LED command payload leaves the controller state
completely unchanged — no record is created, refreshed or modified — and
produces no effect at all, regardless of its source address. -/
theorem command_payloads_leave_fleet_state_unchanged (solver : Lh2Solver)
    (ctl : Controller) (now : Int) (p : ProtocolPayload)
    (h : p.payload_type = PayloadType.cmd_move_raw ∨
      p.payload_type = PayloadType.cmd_rgb_led) :
    handle_received_payload solver ctl now p = (ctl, []) :=
  handle_received_payload_command solver ctl now p h

/-- Witness for the claim-C6 theorem: a concrete movement command payload. -/
theorem command_payloads_leave_fleet_state_unchanged_witness :
    ((ProtocolPayload.mk ⟨1, 2, 3, 4⟩ PayloadType.cmd_move_raw []).payload_type =
        PayloadType.cmd_move_raw ∨
      (ProtocolPayload.mk ⟨1, 2, 3, 4⟩ PayloadType.cmd_move_raw []).payload_type =
        PayloadType.cmd_rgb_led) ∧
    handle_received_payload nullSolver freshController 5
      (ProtocolPayload.mk ⟨1, 2, 3, 4⟩ PayloadType.cmd_move_raw []) =
      (freshController, []) :=
  ⟨Or.inl rfl,
    command_payloads_leave_fleet_state_unchanged nullSolver freshController 5
      (ProtocolPayload.mk ⟨1, 2, 3, 4⟩ PayloadType.cmd_move_raw []) (Or.inl rfl)⟩

theorem insertsOf_append (a b : List Event) :
    insertsOf (a ++ b) = insertsOf a ++ insertsOf b := by
  unfold insertsOf
  rw [List.filterMap_append]

theorem positionNotificationsOf_append (a b : List Event) :
    positionNotificationsOf (a ++ b) =
      positionNotificationsOf a ++ positionNotificationsOf b := by
  unfold positionNotificationsOf notificationsOf
  rw [List.filterMap_append, List.filter_append]

/-- Claim C8: every record the payload handler writes into fleet state carries
the instant of the call as its last-seen timestamp, and its active flag is set
exactly when the numeric value of its hexadecimal address equals the
controller's configured destination address (the comparison
`int(source, 16) == self.header.destination` of controller.py line 205).  The
handler is the only code path that inserts records; the eviction pass only
removes them. -/
theorem inserted_record_invariant (solver : Lh2Solver) (ctl : Controller)
    (now : Int) (p : ProtocolPayload) :
    ∀ r ∈ insertsOf (handle_received_payload solver ctl now p).2,
      r.last_seen = now ∧
        r.active = (intOfHex r.address == ctl.header.destination) := by
  intro r hr
  by_cases h : p.payload_type = PayloadType.cmd_move_raw ∨
      p.payload_type = PayloadType.cmd_rgb_led
  · rw [handle_received_payload_command solver ctl now p h] at hr
    exact absurd hr (List.not_mem_nil r)
  · rw [handle_received_payload_telemetry solver ctl now p h] at hr
    rw [insertsOf_append, insertsOf_append] at hr
    rw [insertsOf_eq_nil_of_shape
      (fun e he => (lh2_events_shape solver ctl p (hexlify8 p.header.source) e he).1)] at hr
    have hmid : insertsOf
        (if containsKey ctl.dotbots (hexlify8 p.header.source) then []
         else [Event.notify Notification.reload]) = [] := by
      split <;> simp [insertsOf, Event.insertedRecord]
    rw [hmid] at hr
    simp only [List.nil_append] at hr
    have : r = { address := hexlify8 p.header.source
                 last_seen := now
                 active := intOfHex (hexlify8 p.header.source) ==
                   ctl.header.destination } := by
      simpa [insertsOf, Event.insertedRecord] using hr
    subst this
    exact ⟨rfl, rfl⟩

/-- Witness for the claim-C8 theorem: the record inserted for a concrete
telemetry payload from source address 9 at instant 7. -/
theorem inserted_record_invariant_witness :
    ({ address := hexlify8 9, last_seen := 7, active := false } : DotBotModel) ∈
      insertsOf (handle_received_payload nullSolver freshController 7
        newSourcePayload).2 ∧
    (({ address := hexlify8 9, last_seen := 7, active := false } :
        DotBotModel).last_seen = 7 ∧
      ({ address := hexlify8 9, last_seen := 7, active := false } :
        DotBotModel).active =
        (intOfHex ({ address := hexlify8 9, last_seen := 7, active := false } :
          DotBotModel).address == freshController.header.destination)) :=
  ⟨by decide,
    inserted_record_invariant nullSolver freshController 7 newSourcePayload
      { address := hexlify8 9, last_seen := 7, active := false } (by decide)⟩

/-- Claim C7: for a positioning-sample batch, when a calibration model is
loaded and the external solver returns coordinates, exactly one position-update
notification is emitted, carrying cmd "lh2_position", the hexadecimal source
address and the two returned coordinates as x and y; when no model is loaded,
or the solver returns nothing, no position-update notification is emitted. -/
theorem lh2_position_notification_spec (solver : Lh2Solver) (ctl : Controller)
    (now : Int) (p : ProtocolPayload)
    (hty : p.payload_type = PayloadType.lh2_raw_data) :
    (∀ cal xy, ctl.calibration = some cal → solver p.values cal = some xy →
      positionNotificationsOf (handle_received_payload solver ctl now p).2 =
        [Notification.lh2Position (hexlify8 p.header.source) xy.1 xy.2]) ∧
    (ctl.calibration = none →
      positionNotificationsOf (handle_received_payload solver ctl now p).2 = []) ∧
    (∀ cal, ctl.calibration = some cal → solver p.values cal = none →
      positionNotificationsOf (handle_received_payload solver ctl now p).2 = []) := by
  have htel : ¬(p.payload_type = PayloadType.cmd_move_raw ∨
      p.payload_type = PayloadType.cmd_rgb_led) := by
    rw [hty]
    decide
  rw [handle_received_payload_telemetry solver ctl now p htel]
  refine ⟨?_, ?_, ?_⟩
  · intro cal xy hcal hsol
    by_cases hcb : ctl.settings.calibrate = true <;>
      by_cases hck : containsKey ctl.dotbots (hexlify8 p.header.source) = true <;>
        simp [lh2_events, hty, hcal, hsol, hcb, hck, positionNotificationsOf,
          notificationsOf, Event.sentNotification]
  · intro hcal
    by_cases hcb : ctl.settings.calibrate = true <;>
      by_cases hck : containsKey ctl.dotbots (hexlify8 p.header.source) = true <;>
        simp [lh2_events, hty, hcal, hcb, hck, positionNotificationsOf,
          notificationsOf, Event.sentNotification]
  · intro cal hcal hsol
    by_cases hcb : ctl.settings.calibrate = true <;>
      by_cases hck : containsKey ctl.dotbots (hexlify8 p.header.source) = true <;>
        simp [lh2_events, hty, hcal, hsol, hcb, hck, positionNotificationsOf,
          notificationsOf, Event.sentNotification]

/-- A controller with a loaded calibration model. -/
def calibratedController : Controller :=
  { freshController with calibration := some 0 }

/-- A solver returning the fixed coordinate pair (3, 4). -/
def constSolver : Lh2Solver := fun _ _ => some (3, 4)

/-- A positioning-sample-batch payload from source address 9. -/
def lh2Payload : ProtocolPayload :=
  { header := { destination := 16962, source := 9, swarm_id := 119, version := 1 }
    payload_type := PayloadType.lh2_raw_data
    values := [5, 6] }

/-- Witness for the claim-C7 theorem: a concrete positioning batch, a loaded
model and a solver resolving (3, 4) produce the single expected
position-update notification. -/
theorem lh2_position_notification_spec_witness :
    lh2Payload.payload_type = PayloadType.lh2_raw_data ∧
    calibratedController.calibration = some 0 ∧
    constSolver lh2Payload.values 0 = some (3, 4) ∧
    positionNotificationsOf (handle_received_payload constSolver
        calibratedController 2 lh2Payload).2 =
      [Notification.lh2Position (hexlify8 9) 3 4] :=
  ⟨rfl, rfl, rfl,
    (lh2_position_notification_spec constSolver calibratedController 2
      lh2Payload rfl).1 0 (3, 4) rfl rfl⟩

theorem foldl_dictPop_eq_filter (rem : List (String × DotBotModel))
    (s : FleetState) :
    rem.foldl (fun t kv => dictPop t kv.2.address) s =
      s.filter fun kv => !(rem.any fun r => kv.1 == r.2.address) := by
  induction rem generalizing s with
  | nil => simp
  | cons r rest ih =>
    rw [List.foldl_cons, ih]
    unfold dictPop
    rw [List.filter_filter]
    apply List.filter_congr
    intro kv _
    cases h1 : (kv.1 == r.2.address) <;> simp [h1, bne]

/-- Claim C2: one eviction pass removes exactly the records whose last-seen
timestamp lies more than 3 seconds before the current instant, removes them all
in the same pass, and emits exactly one "reload" notification for the whole
pass when the removed set is non-empty, and none when it is empty.  The
hypotheses state the dictionary invariants of `self.dotbots`: keys are unique
and each entry is keyed by its record's address. -/
theorem eviction_tick_spec (dotbots : FleetState) (now : Int)
    (wk : ∀ kv ∈ dotbots, kv.1 = kv.2.address)
    (nd : (dotbots.map Prod.fst).Nodup) :
    (∀ kv, kv ∈ (dotbots_update_tick dotbots now).1 ↔
      kv ∈ dotbots ∧ ¬(kv.2.last_seen + 3 < now)) ∧
    ((∃ kv ∈ dotbots, kv.2.last_seen + 3 < now) →
      (dotbots_update_tick dotbots now).2 = [Notification.reload]) ∧
    ((∀ kv ∈ dotbots, ¬(kv.2.last_seen + 3 < now)) →
      (dotbots_update_tick dotbots now).2 = []) := by
  refine ⟨?_, ?_, ?_⟩
  · intro kv
    simp only [dotbots_update_tick]
    rw [foldl_dictPop_eq_filter, List.mem_filter]
    constructor
    · rintro ⟨hmem, hb⟩
      refine ⟨hmem, ?_⟩
      intro hlt
      have hkvrem : kv ∈ dotbots.filter
          fun kv => decide (kv.2.last_seen + 3 < now) :=
        List.mem_filter.mpr ⟨hmem, decide_eq_true hlt⟩
      rw [Bool.not_eq_true', List.any_eq_false] at hb
      have := hb kv hkvrem
      rw [wk kv hmem] at this
      simp at this
    · rintro ⟨hmem, hnlt⟩
      refine ⟨hmem, ?_⟩
      rw [Bool.not_eq_true', List.any_eq_false]
      intro r hr
      rw [List.mem_filter] at hr
      obtain ⟨hrmem, hrlt⟩ := hr
      by_contra hbeq
      rw [beq_iff_eq] at hbeq
      rw [← wk r hrmem] at hbeq
      have : kv = r := List.inj_on_of_nodup_map nd hmem hrmem hbeq
      subst this
      exact hnlt (of_decide_eq_true hrlt)
  · rintro ⟨kv, hmem, hlt⟩
    simp only [dotbots_update_tick]
    have hne : (dotbots.filter
        fun kv => decide (kv.2.last_seen + 3 < now)).isEmpty = false := by
      rw [List.isEmpty_eq_false]
      intro hnil
      have : kv ∈ dotbots.filter fun kv => decide (kv.2.last_seen + 3 < now) :=
        List.mem_filter.mpr ⟨hmem, decide_eq_true hlt⟩
      rw [hnil] at this
      exact absurd this (List.not_mem_nil kv)
    rw [hne]
    rfl
  · intro h
    simp only [dotbots_update_tick]
    have hnil : dotbots.filter
        (fun kv => decide (kv.2.last_seen + 3 < now)) = [] := by
      rw [List.filter_eq_nil_iff]
      intro kv hkv
      simp [h kv hkv]
    rw [hnil]
    rfl

/-- A record last seen at instant 0, keyed by its own address. -/
def staleRecord : DotBotModel := { address := "a", last_seen := 0, active := false }

/-- A record last seen at instant 10, keyed by its own address. -/
def freshRecord : DotBotModel := { address := "b", last_seen := 10, active := false }

/-- A two-member fleet: one stale record and one fresh record. -/
def sampleFleet : FleetState := [("a", staleRecord), ("b", freshRecord)]

/-- Witness for the claim-C2 theorem: at instant 5 the stale record (last seen
at 0) is evicted, the fresh one (last seen at 10) survives, and exactly one
reload notification is emitted for the pass. -/
theorem eviction_tick_spec_witness :
    (∀ kv ∈ sampleFleet, kv.1 = kv.2.address) ∧
    (sampleFleet.map Prod.fst).Nodup ∧
    (dotbots_update_tick sampleFleet 5).2 = [Notification.reload] ∧
    (("b", freshRecord) ∈ (dotbots_update_tick sampleFleet 5).1 ↔
      ("b", freshRecord) ∈ sampleFleet ∧
        ¬(("b", freshRecord).2.last_seen + 3 < 5)) :=
  ⟨by decide, by decide,
    (eviction_tick_spec sampleFleet 5 (by decide) (by decide)).2.1
      ⟨("a", staleRecord), by decide, by decide⟩,
    (eviction_tick_spec sampleFleet 5 (by decide) (by decide)).1
      ("b", freshRecord)⟩

/-- Counterexample to claim C3 as stated: with three registered observers whose
middle send fails with an exception other than the
`websockets.exceptions.ConnectionClosedError` named by the except clause, the
failure is not swallowed — it propagates out of `notify_clients` — even though
the other two deliveries still happen. -/
theorem notify_clients_propagates_uncaught_failure :
    (notify_clients [WsBehavior.ok, WsBehavior.raises PyError.otherError,
      WsBehavior.ok]).1 = some PyError.otherError ∧
    (notify_clients [WsBehavior.ok, WsBehavior.raises PyError.otherError,
      WsBehavior.ok]).2 = [true, false, true] := by decide

/-- Claim C3 amended: each handle's delivery depends only on that handle's own
behaviour, so no failure anywhere prevents delivery to the remaining handles;
and `notify_clients` raises nothing exactly when no handle fails with an
exception other than the connection-closed error its except clause swallows (a
connection-closed failure is always swallowed; any other failure propagates
out of `notify_clients`). -/
theorem notify_clients_isolation_amended (clients : List WsBehavior) :
    (notify_clients clients).2 =
      clients.map (fun b => decide (b = WsBehavior.ok)) ∧
    ((notify_clients clients).1 = none ↔
      ∀ b ∈ clients, b ≠ WsBehavior.raises PyError.otherError) := by
  constructor
  · simp only [notify_clients, List.map_map]
    apply List.map_congr_left
    intro b _
    cases b with
    | ok => rfl
    | raises e => cases e <;> rfl
  · simp only [notify_clients]
    rw [List.head?_eq_none_iff, List.filterMap_eq_nil_iff]
    constructor
    · intro h b hb hbe
      subst hbe
      have := h (ws_send_safe (WsBehavior.raises PyError.otherError))
        (List.mem_map_of_mem _ hb)
      simp [ws_send_safe] at this
    · intro h x hx
      rw [List.mem_map] at hx
      obtain ⟨b, hb, rfl⟩ := hx
      cases b with
      | ok => rfl
      | raises e =>
        cases e with
        | connectionClosedError => rfl
        | otherError => exact absurd rfl (h _ hb)

/-- Witness for the amended claim-C3 theorem: one delivering handle and one
closed-connection handle — the message is delivered to the first, the
connection-closed failure is swallowed and nothing propagates. -/
theorem notify_clients_isolation_amended_witness :
    (notify_clients [WsBehavior.ok,
        WsBehavior.raises PyError.connectionClosedError]).2 =
      [WsBehavior.ok, WsBehavior.raises PyError.connectionClosedError].map
        (fun b => decide (b = WsBehavior.ok)) ∧
    ((notify_clients [WsBehavior.ok,
        WsBehavior.raises PyError.connectionClosedError]).1 = none ↔
      ∀ b ∈ [WsBehavior.ok, WsBehavior.raises PyError.connectionClosedError],
        b ≠ WsBehavior.raises PyError.otherError) :=
  notify_clients_isolation_amended
    [WsBehavior.ok, WsBehavior.raises PyError.connectionClosedError]

/-- Counterexample to claim C4 as stated: on a fatal serial transport failure
`run` cancels all activities and prints the error, but then returns normally —
no exception reaches its caller, contradicting the claimed surfacing of the
error. -/
theorem run_swallows_fatal_error :
    fatalTransport RunError.serialException = true ∧
    (run (some RunError.serialException)).cancelled = runTasks ∧
    (run (some RunError.serialException)).raisedToCaller = none := by decide

/-- Claim C4 amended: on a fatal transport condition `run` cancels every
activity, prints the error as a terminal diagnostic, and terminates the run —
but the error is swallowed rather than surfaced: `run` returns normally and
raises nothing to its caller. -/
theorem run_fatal_cancels_all_amended (e : RunError)
    (h : fatalTransport e = true) :
    (run (some e)).cancelled = runTasks ∧
    (run (some e)).diagnosticPrinted = some e ∧
    (run (some e)).raisedToCaller = none := by
  cases e <;> revert h <;> decide

/-- Witness for the amended claim-C4 theorem at a concrete serial-interface
failure. -/
theorem run_fatal_cancels_all_amended_witness :
    fatalTransport RunError.serialInterfaceException = true ∧
    ((run (some RunError.serialInterfaceException)).cancelled = runTasks ∧
      (run (some RunError.serialInterfaceException)).diagnosticPrinted =
        some RunError.serialInterfaceException ∧
      (run (some RunError.serialInterfaceException)).raisedToCaller = none) :=
  ⟨by decide,
    run_fatal_cancels_all_amended RunError.serialInterfaceException (by decide)⟩

/-- The record for address 5, as it would sit in fleet state. -/
def presentRecord : DotBotModel :=
  { address := hexlify8 5, last_seen := 0, active := false }

/-- A controller whose fleet state contains the address 5 but whose serial
transport was never started. -/
def reachableNoSerialController : Controller :=
  { freshController with dotbots := [(hexlify8 5, presentRecord)] }

/-- A controller whose fleet state contains the address 5 and whose serial
transport is up. -/
def reachableSerialController : Controller :=
  { freshController with dotbots := [(hexlify8 5, presentRecord)]
                         serial := some () }

/-- A command payload addressed to destination 5. -/
def payloadToFive : ProtocolPayload :=
  { header := { destination := 5, source := 16962, swarm_id := 119, version := 1 }
    payload_type := PayloadType.cmd_move_raw
    values := [0, 0] }

/-- Counterexample to claim C5 as stated: a destination present in fleet state
still gets zero transport writes when the serial handle is unset, so presence
of the destination alone does not make the payload be written. -/
theorem send_present_dest_without_serial_writes_nothing :
    containsKey reachableNoSerialController.dotbots
      (hexlify8 payloadToFive.header.destination) = true ∧
    send_payload reachableNoSerialController payloadToFive = [] := by decide

/-- Claim C5 amended: a payload whose destination address is absent from fleet
state is silently discarded with zero transport writes and no error; when the
destination is present and the serial transport has been started, the payload
is encoded, HDLC-framed and written to the transport in a single write. -/
theorem send_payload_spec_amended (ctl : Controller) (p : ProtocolPayload) :
    (containsKey ctl.dotbots (hexlify8 p.header.destination) = false →
      send_payload ctl p = []) ∧
    (containsKey ctl.dotbots (hexlify8 p.header.destination) = true →
      ∀ u, ctl.serial = some u →
        send_payload ctl p = [hdlc_encode (ProtocolPayload.to_bytes p)]) := by
  constructor
  · intro h
    simp only [send_payload]
    rw [if_pos h]
  · intro h u hs
    simp only [send_payload]
    rw [if_neg (by simp [h]), hs]

/-- Witness for the amended claim-C5 theorem: with destination 5 present and
the serial transport started, exactly one framed write happens. -/
theorem send_payload_spec_amended_witness :
    containsKey reachableSerialController.dotbots
      (hexlify8 payloadToFive.header.destination) = true ∧
    send_payload reachableSerialController payloadToFive =
      [hdlc_encode (ProtocolPayload.to_bytes payloadToFive)] :=
  ⟨by decide,
    (send_payload_spec_amended reachableSerialController payloadToFive).2
      (by decide) () rfl⟩

/-- Claim C9: the calibration blob is looked up at the absolute path
/tmp/calibration.out whatever the configured calibration directory is, because
joining any directory with an absolute second component yields that component;
the calibration_dir setting therefore never influences which calibration model
is loaded. -/
theorem calibration_path_ignores_calibration_dir
    (settings : ControllerSettings) :
    init_calibration_path settings = "/tmp/calibration.out" := by
  unfold init_calibration_path posixpath_join
  have h : startsWithSlash "/tmp/calibration.out" = true := by decide
  simp [h]

/-- Witness for the claim-C9 theorem at the sample settings (whose configured
calibration directory is "/tmp"). -/
theorem calibration_path_ignores_calibration_dir_witness :
    init_calibration_path sampleSettings = "/tmp/calibration.out" :=
  calibration_path_ignores_calibration_dir sampleSettings

/-- Claim C10: even for a destination address present in fleet state,
`send_payload` performs zero transport writes and raises nothing when the
serial handle has not been set — the same silent discard as for an unknown
destination. -/
theorem send_payload_serial_unset_discard (ctl : Controller)
    (p : ProtocolPayload)
    (hdest : containsKey ctl.dotbots (hexlify8 p.header.destination) = true)
    (hser : ctl.serial = none) :
    send_payload ctl p = [] := by
  simp only [send_payload]
  rw [if_neg (by simp [hdest]), hser]

/-- Witness for the claim-C10 theorem: destination 5 present, serial handle
unset, zero writes. -/
theorem send_payload_serial_unset_discard_witness :
    containsKey reachableNoSerialController.dotbots
      (hexlify8 payloadToFive.header.destination) = true ∧
    reachableNoSerialController.serial = none ∧
    send_payload reachableNoSerialController payloadToFive = [] :=
  ⟨by decide, rfl,
    send_payload_serial_unset_discard reachableNoSerialController payloadToFive
      (by decide) rfl⟩

end BotController
